import Mathlib

/-!
Verification of the medicalc core: unit-tagged clinical quantities and the
calculators built on them.  Rational-valued formulas (unit conversions, sodium
correction, range classification, CHA2DS2 score builders) are embedded over ℚ;
the eGFR and MELD calculators, which use `powf` and `ln`, are embedded over ℝ
with `Real.rpow` and `Real.log`.  Floating-point arithmetic is idealized as
exact arithmetic on ℚ/ℝ.
-/

/-! ## Conversion constants (src/constants.rs) -/

/-- Multiply by this factor to convert glucose mmol/L to mg/dL. -/
def GLU_MMOLL_TO_MGDL : ℚ := 18.0

/-- Multiply by this factor to convert glucose mg/dL to mmol/L. -/
def GLU_MGDL_TO_MMOLL : ℚ := GLU_MMOLL_TO_MGDL⁻¹

/-- Multiply by this factor to convert creatinine mg/dL to µmol/L. -/
def SCR_MGDL_TO_UMOLL : ℚ := 88.4

/-- Multiply by this factor to convert creatinine µmol/L to mg/dL. -/
def SCR_UMOLL_TO_MGDL : ℚ := SCR_MGDL_TO_UMOLL⁻¹

/-- Multiply by this factor to convert pounds to kilograms. -/
def LB_TO_KG : ℚ := 0.45359237

/-- Multiply by this factor to convert kilograms to pounds. -/
def KG_TO_LB : ℚ := LB_TO_KG⁻¹

/-- Multiply by this factor to convert feet to meters. -/
def FT_TO_M : ℚ := 0.3048

/-- Multiply by this factor to convert meters to feet. -/
def M_TO_FT : ℚ := FT_TO_M⁻¹

/-- Multiply by this factor to convert mg/dL bilirubin to µmol/L. -/
def SBILI_MGDL_TO_UMOLL : ℚ := 17.1

/-- Multiply by this factor to convert µmol/L bilirubin to mg/dL. -/
def SBILI_UMOLL_TO_MGDL : ℚ := SBILI_MGDL_TO_UMOLL⁻¹

/-! ## Unit tags and per-kind conversion protocols (src/units/*.rs) -/

/-- The sodium unit tags (`MeqL`, `MmolL`) implementing `SodiumUnit`. -/
inductive SodiumUnit
  | MeqL
  | MmolL
deriving DecidableEq

/-- `SodiumUnit::to_mmol_l`: identity for both mEq/L and mmol/L. -/
def SodiumUnit.to_mmol_l : SodiumUnit → ℚ → ℚ
  | .MeqL, val => val
  | .MmolL, val => val

/-- `SodiumUnit::from_mmol_l`: identity for both mEq/L and mmol/L. -/
def SodiumUnit.from_mmol_l : SodiumUnit → ℚ → ℚ
  | .MeqL, val => val
  | .MmolL, val => val

/-- The glucose unit tags (`MgdL`, `MmolL`) implementing `GlucoseUnit`. -/
inductive GlucoseUnit
  | MgdL
  | MmolL
deriving DecidableEq

/-- `GlucoseUnit::to_mmol_l` from src/units/glucose.rs. -/
def GlucoseUnit.to_mmol_l : GlucoseUnit → ℚ → ℚ
  | .MgdL, val => val * GLU_MGDL_TO_MMOLL
  | .MmolL, val => val

/-- `GlucoseUnit::from_mmol_l` from src/units/glucose.rs. -/
def GlucoseUnit.from_mmol_l : GlucoseUnit → ℚ → ℚ
  | .MgdL, val => val * GLU_MMOLL_TO_MGDL
  | .MmolL, val => val

/-- The creatinine unit tags (`MgdL`, `UmolL`) implementing `CreatinineUnit`.
The calculators use these over ℝ. -/
inductive CreatinineUnit
  | MgdL
  | UmolL
deriving DecidableEq

/-- `CreatinineUnit::to_umol_l` from src/units/creatinine.rs. -/
noncomputable def CreatinineUnit.to_umol_l : CreatinineUnit → ℝ → ℝ
  | .MgdL, value => value * (SCR_MGDL_TO_UMOLL : ℝ)
  | .UmolL, value => value

/-- `CreatinineUnit::from_umol_l` from src/units/creatinine.rs
(`MgdL` divides by the constant, `UmolL` is identity). -/
noncomputable def CreatinineUnit.from_umol_l : CreatinineUnit → ℝ → ℝ
  | .MgdL, value => value / (SCR_MGDL_TO_UMOLL : ℝ)
  | .UmolL, value => value

/-- The bilirubin unit tags (`MgdL`, `UmolL`) implementing `BilirubinUnit`. -/
inductive BilirubinUnit
  | MgdL
  | UmolL
deriving DecidableEq

/-- `BilirubinUnit::to_umoll` from src/units/bilirubin.rs. -/
noncomputable def BilirubinUnit.to_umoll : BilirubinUnit → ℝ → ℝ
  | .MgdL, value => value * (SBILI_MGDL_TO_UMOLL : ℝ)
  | .UmolL, value => value

/-- `BilirubinUnit::from_umoll` from src/units/bilirubin.rs. -/
noncomputable def BilirubinUnit.from_umoll : BilirubinUnit → ℝ → ℝ
  | .MgdL, value => value * (SBILI_UMOLL_TO_MGDL : ℝ)
  | .UmolL, value => value

/-! ## Demographic facts (src/history.rs) -/

/-- Age in years (`Years(pub f64)`). -/
structure Years where
  val : ℚ
deriving DecidableEq

/-- Closest physiologic gender. -/
inductive Gender
  | Female
  | Male
deriving DecidableEq

/-! ## Range classification (src/lab.rs) -/

/-- Possible ranges for numeric results (`ResultRange`). -/
inductive ResultRange
  | CriticalLow
  | Low
  | Normal
  | High
  | CriticalHigh
deriving DecidableEq

/-- Range thresholds for numeric results (`RangeThreshold`). -/
structure RangeThreshold where
  crit_low : ℚ
  low_norm : ℚ
  norm_hi : ℚ
  hi_crit : ℚ
deriving DecidableEq

/-- `select_range` from src/lab.rs: inclusive-toward-lower-category chain of
`<=` comparisons. -/
def select_range (value : ℚ) (thresholds : RangeThreshold) : ResultRange :=
  if value ≤ thresholds.crit_low then ResultRange.CriticalLow
  else if value ≤ thresholds.low_norm then ResultRange.Low
  else if value ≤ thresholds.norm_hi then ResultRange.Normal
  else if value ≤ thresholds.hi_crit then ResultRange.High
  else ResultRange.CriticalHigh

/-- Modelled from the spec: the same classification chain with strict `<`
comparisons at every cut point, as the sodium and glucose `range()` impls
write out by hand.  Used to compare those impls against `select_range`. -/
def selectRangeStrict (value : ℚ) (thresholds : RangeThreshold) : ResultRange :=
  if value < thresholds.crit_low then ResultRange.CriticalLow
  else if value < thresholds.low_norm then ResultRange.Low
  else if value < thresholds.norm_hi then ResultRange.Normal
  else if value < thresholds.hi_crit then ResultRange.High
  else ResultRange.CriticalHigh

/-! ## Sodium and glucose range classifiers (src/lab/blood/{sodium,glucose}.rs) -/

/-- `NA_SERUM_THRESHOLDS` from src/lab/blood/sodium.rs. -/
def NA_SERUM_THRESHOLDS : RangeThreshold :=
  { crit_low := 130.0, low_norm := 135.0, norm_hi := 145.0, hi_crit := 150.0 }

/-- `Sodium::<MeqL>::range` / `Sodium::<MmolL>::range` (both impls are the same
strict-`<` chain over `NA_SERUM_THRESHOLDS`). -/
def sodiumRange (value : ℚ) : ResultRange :=
  if value < NA_SERUM_THRESHOLDS.crit_low then ResultRange.CriticalLow
  else if value < NA_SERUM_THRESHOLDS.low_norm then ResultRange.Low
  else if value < NA_SERUM_THRESHOLDS.norm_hi then ResultRange.Normal
  else if value < NA_SERUM_THRESHOLDS.hi_crit then ResultRange.High
  else ResultRange.CriticalHigh

/-- `GLU_SERUM_THRESHOLDS_MGDL` from src/lab/blood/glucose.rs. -/
def GLU_SERUM_THRESHOLDS_MGDL : RangeThreshold :=
  { crit_low := 60.0, low_norm := 85.0, norm_hi := 125.0, hi_crit := 200.0 }

/-- `GLU_SERUM_THRESHOLDS_MMOLL` from src/lab/blood/glucose.rs: each cut point
scaled by the mg/dL → mmol/L factor. -/
def GLU_SERUM_THRESHOLDS_MMOLL : RangeThreshold :=
  { crit_low := GLU_SERUM_THRESHOLDS_MGDL.crit_low * GLU_MGDL_TO_MMOLL
    low_norm := GLU_SERUM_THRESHOLDS_MGDL.low_norm * GLU_MGDL_TO_MMOLL
    norm_hi := GLU_SERUM_THRESHOLDS_MGDL.norm_hi * GLU_MGDL_TO_MMOLL
    hi_crit := GLU_SERUM_THRESHOLDS_MGDL.hi_crit * GLU_MGDL_TO_MMOLL }

/-- `Glucose::<MgdL>::range`: strict-`<` chain over the mg/dL thresholds. -/
def glucoseRangeMgdl (value : ℚ) : ResultRange :=
  if value < GLU_SERUM_THRESHOLDS_MGDL.crit_low then ResultRange.CriticalLow
  else if value < GLU_SERUM_THRESHOLDS_MGDL.low_norm then ResultRange.Low
  else if value < GLU_SERUM_THRESHOLDS_MGDL.norm_hi then ResultRange.Normal
  else if value < GLU_SERUM_THRESHOLDS_MGDL.hi_crit then ResultRange.High
  else ResultRange.CriticalHigh

/-- `Glucose::<MmolL>::range`: strict-`<` chain over the mmol/L thresholds. -/
def glucoseRangeMmol (value : ℚ) : ResultRange :=
  if value < GLU_SERUM_THRESHOLDS_MMOLL.crit_low then ResultRange.CriticalLow
  else if value < GLU_SERUM_THRESHOLDS_MMOLL.low_norm then ResultRange.Low
  else if value < GLU_SERUM_THRESHOLDS_MMOLL.norm_hi then ResultRange.Normal
  else if value < GLU_SERUM_THRESHOLDS_MMOLL.hi_crit then ResultRange.High
  else ResultRange.CriticalHigh

/-! ## Calculators (src/calculators.rs) -/

/-- `correct_na_for_glucose` from src/calculators.rs: convert both inputs to
mmol/L, apply Katz below the 22.2 mmol/L threshold and Hillier at or above it,
and convert the corrected sodium back to the input sodium unit. -/
def correct_na_for_glucose (nU : SodiumUnit) (gU : GlucoseUnit)
    (sodium glucose : ℚ) : ℚ :=
  let na_mmol := nU.to_mmol_l sodium
  let glu_mmol := gU.to_mmol_l glucose
  let katz := fun (na glu : ℚ) => na + 0.29 * (glu - 5.6)
  let hillier := fun (na glu : ℚ) => na + 0.43 * (glu - 5.6)
  let corrected_na :=
    if glu_mmol < 22.2 then katz na_mmol glu_mmol else hillier na_mmol glu_mmol
  nU.from_mmol_l corrected_na

/-- Modelled from the spec: the corrected-sodium value the claim describes,
expressed directly in the caller's sodium unit — `sodium + 0.29 × (g − 5.6)`
when the glucose `g` in mmol/L is strictly below 22.2, and
`sodium + 0.43 × (g − 5.6)` otherwise. -/
def correctedNaClaim (gU : GlucoseUnit) (sodium glucose : ℚ) : ℚ :=
  let g := gU.to_mmol_l glucose
  if g < 22.2 then sodium + 0.29 * (g - 5.6) else sodium + 0.43 * (g - 5.6)

/-- `egfr_ckd_epi` from src/calculators.rs (CKD-EPI 2021, creatinine only):
sex-dependent constants, creatinine routed through µmol/L and back to mg/dL,
then the published power formula over ℝ. -/
noncomputable def egfr_ckd_epi (u : CreatinineUnit) (scr : ℝ) (age : Years)
    (sex : Gender) : ℝ :=
  let kas : ℝ × ℝ × ℝ :=
    if sex = Gender.Female then (0.7, -0.241, 1.012) else (0.9, -0.302, 1.0)
  let scr_umol_l := u.to_umol_l scr
  let scr_mg_dl := CreatinineUnit.from_umol_l CreatinineUnit.MgdL scr_umol_l
  let second_term := (min 1.0 (scr_mg_dl / kas.1)) ^ kas.2.1
  let third_term := (max 1.0 (scr_mg_dl / kas.1)) ^ (-1.200 : ℝ)
  let fourth_term := (0.9938 : ℝ) ^ ((age.val : ℝ))
  142.0 * second_term * third_term * fourth_term * kas.2.2

/-- Modelled from the spec: the eGFR formula as the claim states it, with the
creatinine expressed in mg/dL directly (identity for mg/dL input, division by
88.4 for µmol/L input). -/
noncomputable def egfrClaimFormula (u : CreatinineUnit) (scr : ℝ) (age : Years)
    (sex : Gender) : ℝ :=
  let kas : ℝ × ℝ × ℝ :=
    if sex = Gender.Female then (0.7, -0.241, 1.012) else (0.9, -0.302, 1.0)
  let scr_mg_dl : ℝ :=
    match u with
    | CreatinineUnit.MgdL => scr
    | CreatinineUnit.UmolL => scr / (SCR_MGDL_TO_UMOLL : ℝ)
  let second_term := (min 1.0 (scr_mg_dl / kas.1)) ^ kas.2.1
  let third_term := (max 1.0 (scr_mg_dl / kas.1)) ^ (-1.200 : ℝ)
  let fourth_term := (0.9938 : ℝ) ^ ((age.val : ℝ))
  142.0 * second_term * third_term * fourth_term * kas.2.2

/-- `f64::round`: round half away from zero, as an integer. -/
noncomputable def roundHalfAwayFromZero (x : ℝ) : ℤ :=
  if 0 ≤ x then ⌊x + 1 / 2⌋ else ⌈x - 1 / 2⌉

/-- Rust `as u8` on a rounded float: saturating conversion to `0..=255`. -/
def f64AsU8 (z : ℤ) : ℕ :=
  (max 0 (min 255 z)).toNat

/-- `meld` from src/calculators.rs: bilirubin and creatinine converted to
mg/dL via the µmol/L route, UNOS floors and the dialysis override applied,
then the log-linear score rounded and returned as an unsigned byte. -/
noncomputable def meld (bU : BilirubinUnit) (cU : CreatinineUnit)
    (bili inr scr : ℝ) (last_hd : Option ℕ) : ℕ :=
  let bili_mgdl := bU.to_umoll bili * (SBILI_UMOLL_TO_MGDL : ℝ)
  let scr_mgdl := cU.to_umol_l scr * (SCR_UMOLL_TO_MGDL : ℝ)
  let bili_floored := max bili_mgdl 1.0
  let scr_floored :=
    match last_hd with
    | some days => if days ≤ 7 then 4.0 else max scr_mgdl 1.0
    | none => max scr_mgdl 1.0
  let bili_term := 3.78 * Real.log bili_floored
  let inr_term := 11.2 * Real.log inr
  let scr_term := 9.57 * Real.log scr_floored
  let raw_score := bili_term + inr_term + scr_term + 6.43
  f64AsU8 (roundHalfAwayFromZero raw_score)

/-- Modelled from the spec: the MELD score as the claim states it — bilirubin
and creatinine expressed in mg/dL directly, bilirubin floored to 1.0
unconditionally, creatinine forced to 4.0 exactly when dialysis is recorded at
most 7 days ago and floored to 1.0 otherwise (absence meaning no override),
INR unfloored, and the rounded log-linear score as an unsigned byte. -/
noncomputable def meldClaimFormula (bU : BilirubinUnit) (cU : CreatinineUnit)
    (bili inr scr : ℝ) (last_hd : Option ℕ) : ℕ :=
  let bili_mgdl : ℝ :=
    match bU with
    | BilirubinUnit.MgdL => bili
    | BilirubinUnit.UmolL => bili / (SBILI_MGDL_TO_UMOLL : ℝ)
  let scr_mgdl : ℝ :=
    match cU with
    | CreatinineUnit.MgdL => scr
    | CreatinineUnit.UmolL => scr / (SCR_MGDL_TO_UMOLL : ℝ)
  let bili_floored := max bili_mgdl 1.0
  let dialyzedWithin7 : Bool :=
    match last_hd with
    | some days => days ≤ 7
    | none => false
  let scr_floored := if dialyzedWithin7 then 4.0 else max scr_mgdl 1.0
  let raw_score :=
    3.78 * Real.log bili_floored + 11.2 * Real.log inr
      + 9.57 * Real.log scr_floored + 6.43
  f64AsU8 (roundHalfAwayFromZero raw_score)

/-! ## Quantity-level unit conversions (the `From` impls used by claim C4) -/

/-- `From<Weight<Lb>> for Weight<Kg>` (src/lab/vitals.rs). -/
def weightLbToKg (v : ℚ) : ℚ := v * LB_TO_KG

/-- `From<Weight<Kg>> for Weight<Lb>` (src/lab/vitals.rs). -/
def weightKgToLb (v : ℚ) : ℚ := v * KG_TO_LB

/-- `From<Height<Foot>> for Height<Meter>` (src/lab/vitals.rs). -/
def heightFtToM (v : ℚ) : ℚ := v * FT_TO_M

/-- `From<Height<Meter>> for Height<Foot>` (src/lab/vitals.rs). -/
def heightMToFt (v : ℚ) : ℚ := v * M_TO_FT

/-- `From<Glucose<MmolL>> for Glucose<MgdL>` (src/lab/blood/glucose.rs). -/
def glucoseMmolToMgdl (v : ℚ) : ℚ := v * GLU_MMOLL_TO_MGDL

/-- `From<Glucose<MgdL>> for Glucose<MmolL>` (src/lab/blood/glucose.rs). -/
def glucoseMgdlToMmol (v : ℚ) : ℚ := v * GLU_MGDL_TO_MMOLL

/-- `From<Creatinine<UmolL>> for Creatinine<MgdL>` (src/lab/blood/creatinine.rs). -/
def creatinineUmolToMgdl (v : ℚ) : ℚ := v / SCR_MGDL_TO_UMOLL

/-- `From<Creatinine<MgdL>> for Creatinine<UmolL>` (src/lab/blood/creatinine.rs). -/
def creatinineMgdlToUmol (v : ℚ) : ℚ := v * SCR_MGDL_TO_UMOLL

/-- `From<Bilirubin<MgdL>> for Bilirubin<UmolL>` (src/lab/blood/bilirubin.rs). -/
def bilirubinMgdlToUmol (v : ℚ) : ℚ := v * SBILI_MGDL_TO_UMOLL

/-- `From<Bilirubin<UmolL>> for Bilirubin<MgdL>` (src/lab/blood/bilirubin.rs). -/
def bilirubinUmolToMgdl (v : ℚ) : ℚ := v * SBILI_UMOLL_TO_MGDL

/-- `From<Sodium<MeqL>> for Sodium<MmolL>` (src/lab/blood/sodium.rs): identity. -/
def sodiumMeqToMmol (v : ℚ) : ℚ := v

/-- `From<Sodium<MmolL>> for Sodium<MeqL>` (src/lab/blood/sodium.rs): identity. -/
def sodiumMmolToMeq (v : ℚ) : ℚ := v

/-! ## Score builders (src/calculators/cha2ds2_vasc.rs, cha2ds2_va.rs) -/

/-- CHA₂DS₂-VASc to annual stroke risk table from Friberg (2012). -/
def ANNUAL_CVA_RISK_TABLE : List ℚ :=
  [0.2, 0.6, 2.2, 3.2, 4.8, 7.2, 9.7, 11.2, 10.8, 12.2]

/-- Annual stroke risk (no OAC, with OAC) per CHA₂DS₂-VA score. -/
def CHADS_VA_STROKE_RISK_PCT_ANNUAL : List (ℚ × ℚ) :=
  [(0.5, 0.2), (1.5, 0.5), (2.9, 1.0), (5.1, 1.8), (7.3, 2.6), (11.2, 3.9),
    (15.5, 5.4), (14.7, 5.1), (19.5, 6.8)]

/-- The CHA₂DS₂-VASc calculator state (`ChadsVasc`). -/
structure ChadsVasc where
  age : Years
  sex : Gender
  chf : Bool
  diabetes : Bool
  htn : Bool
  stroke : Bool
  vasc : Bool
  score : Option ℕ
deriving DecidableEq

/-- `ChadsVasc::new`: all flags false, score absent. -/
def ChadsVasc.new (age : Years) (sex : Gender) : ChadsVasc :=
  { age := age, sex := sex, chf := false, diabetes := false, htn := false,
    stroke := false, vasc := false, score := none }

/-- `ChadsVasc::has_chf`. -/
def ChadsVasc.has_chf (b : ChadsVasc) : ChadsVasc := { b with chf := true }

/-- `ChadsVasc::has_diabetes`. -/
def ChadsVasc.has_diabetes (b : ChadsVasc) : ChadsVasc := { b with diabetes := true }

/-- `ChadsVasc::has_htn`. -/
def ChadsVasc.has_htn (b : ChadsVasc) : ChadsVasc := { b with htn := true }

/-- `ChadsVasc::has_stroke_hx`. -/
def ChadsVasc.has_stroke_hx (b : ChadsVasc) : ChadsVasc := { b with stroke := true }

/-- `ChadsVasc::has_vascular_hx`. -/
def ChadsVasc.has_vascular_hx (b : ChadsVasc) : ChadsVasc := { b with vasc := true }

/-- The age arm of the `calculate` match, as a function of the two guard
outcomes (`age >= 75.0`, `age >= 65.0`); total over every comparison outcome,
including the all-false one produced by a non-finite age. -/
def agePointsOf (ge75 ge65 : Bool) : ℕ :=
  if ge75 then 2 else if ge65 then 1 else 0

/-- `ChadsVasc::calculate`: tally age points, +1 if female, +1 per true flag
among chf/diabetes/htn/vasc, +2 for stroke history; store the tally. -/
def ChadsVasc.calculate (b : ChadsVasc) : ChadsVasc :=
  let tally :=
    agePointsOf (b.age.val ≥ 75) (b.age.val ≥ 65)
      + (if b.sex = Gender.Female then 1 else 0)
      + ([b.chf, b.diabetes, b.htn, b.vasc].filter id).length
      + (if b.stroke then 2 else 0)
  { b with score := some tally }

/-- `ChadsVasc::annual_stroke_risk_pct`: risk-table lookup by stored score,
absent while uncalculated.  The Rust indexing (which would panic out of
bounds) is embedded as the fallible `List.get?`. -/
def ChadsVasc.annual_stroke_risk_pct (b : ChadsVasc) : Option ℚ :=
  match b.score with
  | some s => ANNUAL_CVA_RISK_TABLE.get? s
  | none => none

/-- The CHA₂DS₂-VA calculator state (`Cha2Ds2VA`): no sex field. -/
structure Cha2Ds2VA where
  age : Years
  chf : Bool
  diabetes : Bool
  htn : Bool
  stroke : Bool
  vasc : Bool
  score : Option ℕ
deriving DecidableEq

/-- `Cha2Ds2VA::new`. -/
def Cha2Ds2VA.new (age : Years) : Cha2Ds2VA :=
  { age := age, chf := false, diabetes := false, htn := false,
    stroke := false, vasc := false, score := none }

/-- `Cha2Ds2VA::has_chf`. -/
def Cha2Ds2VA.has_chf (b : Cha2Ds2VA) : Cha2Ds2VA := { b with chf := true }

/-- `Cha2Ds2VA::has_diabetes`. -/
def Cha2Ds2VA.has_diabetes (b : Cha2Ds2VA) : Cha2Ds2VA := { b with diabetes := true }

/-- `Cha2Ds2VA::has_htn`. -/
def Cha2Ds2VA.has_htn (b : Cha2Ds2VA) : Cha2Ds2VA := { b with htn := true }

/-- `Cha2Ds2VA::has_stroke_hx`. -/
def Cha2Ds2VA.has_stroke_hx (b : Cha2Ds2VA) : Cha2Ds2VA := { b with stroke := true }

/-- `Cha2Ds2VA::has_vascular_hx`. -/
def Cha2Ds2VA.has_vascular_hx (b : Cha2Ds2VA) : Cha2Ds2VA := { b with vasc := true }

/-- `Cha2Ds2VA::calculate`: age points, +1 per true flag among
htn/chf/vasc/diabetes, +2 for stroke history; store the tally. -/
def Cha2Ds2VA.calculate (b : Cha2Ds2VA) : Cha2Ds2VA :=
  let tally :=
    agePointsOf (b.age.val ≥ 75) (b.age.val ≥ 65)
      + ([b.htn, b.chf, b.vasc, b.diabetes].filter id).length
      + (if b.stroke then 2 else 0)
  { b with score := some tally }

/-- `Cha2Ds2VA::annual_cva_risk_no_oac`: first component of the risk pair. -/
def Cha2Ds2VA.annual_cva_risk_no_oac (b : Cha2Ds2VA) : Option ℚ :=
  match b.score with
  | some s => (CHADS_VA_STROKE_RISK_PCT_ANNUAL.get? s).map Prod.fst
  | none => none

/-- `Cha2Ds2VA::annual_cva_risk_with_oac`: second component of the risk pair. -/
def Cha2Ds2VA.annual_cva_risk_with_oac (b : Cha2Ds2VA) : Option ℚ :=
  match b.score with
  | some s => (CHADS_VA_STROKE_RISK_PCT_ANNUAL.get? s).map Prod.snd
  | none => none

/-- One public-API call on a `ChadsVasc` builder. -/
inductive VascOp
  | chf
  | diabetes
  | htn
  | strokeHx
  | vascHx
  | compute
deriving DecidableEq

/-- Apply one public-API call to a `ChadsVasc` builder. -/
def ChadsVasc.applyOp (b : ChadsVasc) : VascOp → ChadsVasc
  | VascOp.chf => b.has_chf
  | VascOp.diabetes => b.has_diabetes
  | VascOp.htn => b.has_htn
  | VascOp.strokeHx => b.has_stroke_hx
  | VascOp.vascHx => b.has_vascular_hx
  | VascOp.compute => b.calculate

/-- Apply a sequence of public-API calls to a `ChadsVasc` builder. -/
def ChadsVasc.applyOps (b : ChadsVasc) (ops : List VascOp) : ChadsVasc :=
  ops.foldl ChadsVasc.applyOp b

/-- Apply one public-API call to a `Cha2Ds2VA` builder. -/
def Cha2Ds2VA.applyOp (b : Cha2Ds2VA) : VascOp → Cha2Ds2VA
  | VascOp.chf => b.has_chf
  | VascOp.diabetes => b.has_diabetes
  | VascOp.htn => b.has_htn
  | VascOp.strokeHx => b.has_stroke_hx
  | VascOp.vascHx => b.has_vascular_hx
  | VascOp.compute => b.calculate

/-- Apply a sequence of public-API calls to a `Cha2Ds2VA` builder. -/
def Cha2Ds2VA.applyOps (b : Cha2Ds2VA) (ops : List VascOp) : Cha2Ds2VA :=
  ops.foldl Cha2Ds2VA.applyOp b

/-- Modelled from the spec: the CHA₂DS₂-VASc tally exactly as claim C5 words
it — +2 if age ≥ 75, else +1 if age ≥ 65, else +0; +1 per true flag among
hypertension, heart failure, vascular disease and diabetes; +1 if female;
+2 for prior stroke/TIA. -/
def chadsVascScoreSpec (b : ChadsVasc) : ℕ :=
  (if b.age.val ≥ 75 then 2 else if b.age.val ≥ 65 then 1 else 0)
    + (if b.htn then 1 else 0) + (if b.chf then 1 else 0)
    + (if b.vasc then 1 else 0) + (if b.diabetes then 1 else 0)
    + (if b.sex = Gender.Female then 1 else 0)
    + (if b.stroke then 2 else 0)

/-- Modelled from the spec: the CHA₂DS₂-VA tally exactly as claim C5 words it
(no sex point). -/
def chadsVaScoreSpec (b : Cha2Ds2VA) : ℕ :=
  (if b.age.val ≥ 75 then 2 else if b.age.val ≥ 65 then 1 else 0)
    + (if b.htn then 1 else 0) + (if b.chf then 1 else 0)
    + (if b.vasc then 1 else 0) + (if b.diabetes then 1 else 0)
    + (if b.stroke then 2 else 0)

/-! ## Helper lemmas -/

/-- `calculate` stores exactly the claim's CHA₂DS₂-VASc tally. -/
lemma chadsVasc_calculate_eq_spec (b : ChadsVasc) :
    (b.calculate).score = some (chadsVascScoreSpec b) := by
  obtain ⟨⟨a⟩, sex, chf, dm, htn, strk, vasc, sc⟩ := b
  cases sex <;> cases chf <;> cases dm <;> cases htn <;> cases strk <;> cases vasc <;>
    simp [ChadsVasc.calculate, chadsVascScoreSpec, agePointsOf, List.filter]

/-- `calculate` stores exactly the claim's CHA₂DS₂-VA tally. -/
lemma chadsVa_calculate_eq_spec (b : Cha2Ds2VA) :
    (b.calculate).score = some (chadsVaScoreSpec b) := by
  obtain ⟨⟨a⟩, chf, dm, htn, strk, vasc, sc⟩ := b
  cases chf <;> cases dm <;> cases htn <;> cases strk <;> cases vasc <;>
    simp [Cha2Ds2VA.calculate, chadsVaScoreSpec, agePointsOf, List.filter]

/-- The CHA₂DS₂-VASc tally is at most 9. -/
lemma chadsVascScoreSpec_le (b : ChadsVasc) : chadsVascScoreSpec b ≤ 9 := by
  simp only [chadsVascScoreSpec]
  split_ifs <;> omega

/-- The CHA₂DS₂-VA tally is at most 8. -/
lemma chadsVaScoreSpec_le (b : Cha2Ds2VA) : chadsVaScoreSpec b ≤ 8 := by
  simp only [chadsVaScoreSpec]
  split_ifs <;> omega

/-- Any index at most 9 is in bounds for the 10-entry VASc risk table. -/
lemma vascTableGetIsSome (s : ℕ) (h : s ≤ 9) :
    (ANNUAL_CVA_RISK_TABLE.get? s).isSome := by
  interval_cases s <;> decide

/-- Any index at most 8 is in bounds for the 9-entry VA risk table. -/
lemma vaTableGetIsSome (s : ℕ) (h : s ≤ 8) :
    (CHADS_VA_STROKE_RISK_PCT_ANNUAL.get? s).isSome := by
  interval_cases s <;> decide

/-- Score bound is preserved by any sequence of public-API calls (VASc). -/
lemma vasc_applyOps_score_le :
    ∀ (ops : List VascOp) (b : ChadsVasc), (∀ s, b.score = some s → s ≤ 9) →
      ∀ s, (b.applyOps ops).score = some s → s ≤ 9 := by
  intro ops
  induction ops with
  | nil => intro b hb; simpa [ChadsVasc.applyOps] using hb
  | cons op rest ih =>
    intro b hb
    show ∀ s, ((b.applyOp op).applyOps rest).score = some s → s ≤ 9
    apply ih
    cases op
    case chf => simpa [ChadsVasc.applyOp, ChadsVasc.has_chf] using hb
    case diabetes => simpa [ChadsVasc.applyOp, ChadsVasc.has_diabetes] using hb
    case htn => simpa [ChadsVasc.applyOp, ChadsVasc.has_htn] using hb
    case strokeHx => simpa [ChadsVasc.applyOp, ChadsVasc.has_stroke_hx] using hb
    case vascHx => simpa [ChadsVasc.applyOp, ChadsVasc.has_vascular_hx] using hb
    case compute =>
      intro s hs
      rw [show b.applyOp VascOp.compute = b.calculate from rfl,
        chadsVasc_calculate_eq_spec] at hs
      obtain rfl : chadsVascScoreSpec b = s := by simpa using hs
      exact chadsVascScoreSpec_le b

/-- Score bound is preserved by any sequence of public-API calls (VA). -/
lemma va_applyOps_score_le :
    ∀ (ops : List VascOp) (b : Cha2Ds2VA), (∀ s, b.score = some s → s ≤ 8) →
      ∀ s, (b.applyOps ops).score = some s → s ≤ 8 := by
  intro ops
  induction ops with
  | nil => intro b hb; simpa [Cha2Ds2VA.applyOps] using hb
  | cons op rest ih =>
    intro b hb
    show ∀ s, ((b.applyOp op).applyOps rest).score = some s → s ≤ 8
    apply ih
    cases op
    case chf => simpa [Cha2Ds2VA.applyOp, Cha2Ds2VA.has_chf] using hb
    case diabetes => simpa [Cha2Ds2VA.applyOp, Cha2Ds2VA.has_diabetes] using hb
    case htn => simpa [Cha2Ds2VA.applyOp, Cha2Ds2VA.has_htn] using hb
    case strokeHx => simpa [Cha2Ds2VA.applyOp, Cha2Ds2VA.has_stroke_hx] using hb
    case vascHx => simpa [Cha2Ds2VA.applyOp, Cha2Ds2VA.has_vascular_hx] using hb
    case compute =>
      intro s hs
      rw [show b.applyOp VascOp.compute = b.calculate from rfl,
        chadsVa_calculate_eq_spec] at hs
      obtain rfl : chadsVaScoreSpec b = s := by simpa using hs
      exact chadsVaScoreSpec_le b

/-- Without a `calculate` call, the stored score stays absent (VASc). -/
lemma vasc_applyOps_score_none :
    ∀ (ops : List VascOp), VascOp.compute ∉ ops →
      ∀ b : ChadsVasc, b.score = none → (b.applyOps ops).score = none := by
  intro ops
  induction ops with
  | nil => intro _ b hb; simpa [ChadsVasc.applyOps] using hb
  | cons op rest ih =>
    intro h b hb
    have hrest : VascOp.compute ∉ rest := fun hm => h (List.mem_cons_of_mem _ hm)
    show ((b.applyOp op).applyOps rest).score = none
    apply ih hrest
    cases op
    case chf => simpa [ChadsVasc.applyOp, ChadsVasc.has_chf] using hb
    case diabetes => simpa [ChadsVasc.applyOp, ChadsVasc.has_diabetes] using hb
    case htn => simpa [ChadsVasc.applyOp, ChadsVasc.has_htn] using hb
    case strokeHx => simpa [ChadsVasc.applyOp, ChadsVasc.has_stroke_hx] using hb
    case vascHx => simpa [ChadsVasc.applyOp, ChadsVasc.has_vascular_hx] using hb
    case compute => exact absurd (List.mem_cons_self _ _) h

/-- Without a `calculate` call, the stored score stays absent (VA). -/
lemma va_applyOps_score_none :
    ∀ (ops : List VascOp), VascOp.compute ∉ ops →
      ∀ b : Cha2Ds2VA, b.score = none → (b.applyOps ops).score = none := by
  intro ops
  induction ops with
  | nil => intro _ b hb; simpa [Cha2Ds2VA.applyOps] using hb
  | cons op rest ih =>
    intro h b hb
    have hrest : VascOp.compute ∉ rest := fun hm => h (List.mem_cons_of_mem _ hm)
    show ((b.applyOp op).applyOps rest).score = none
    apply ih hrest
    cases op
    case chf => simpa [Cha2Ds2VA.applyOp, Cha2Ds2VA.has_chf] using hb
    case diabetes => simpa [Cha2Ds2VA.applyOp, Cha2Ds2VA.has_diabetes] using hb
    case htn => simpa [Cha2Ds2VA.applyOp, Cha2Ds2VA.has_htn] using hb
    case strokeHx => simpa [Cha2Ds2VA.applyOp, Cha2Ds2VA.has_stroke_hx] using hb
    case vascHx => simpa [Cha2Ds2VA.applyOp, Cha2Ds2VA.has_vascular_hx] using hb
    case compute => exact absurd (List.mem_cons_self _ _) h

/-! ## Claim theorems: score builders -/

/-- C5: the compute operation of both builders stores the tally (+2 age ≥ 75,
else +1 age ≥ 65; +1 per true flag among hypertension, heart failure, vascular
disease, diabetes; +1 female for VASc only; +2 for prior stroke/TIA); the
maximal history yields VASc 9 and VA 8, and the tallies are bounded by 9 and 8
respectively. -/
theorem claim_C5_compute_stores_tally :
    (∀ b : ChadsVasc, (b.calculate).score = some (chadsVascScoreSpec b)) ∧
    (∀ b : Cha2Ds2VA, (b.calculate).score = some (chadsVaScoreSpec b)) ∧
    ((((((ChadsVasc.new ⟨75⟩
        Gender.Female).has_chf).has_diabetes).has_htn).has_stroke_hx).has_vascular_hx).calculate.score
      = some 9 ∧
    ((((((Cha2Ds2VA.new
        ⟨75⟩).has_chf).has_diabetes).has_htn).has_stroke_hx).has_vascular_hx).calculate.score
      = some 8 ∧
    (∀ b : ChadsVasc, chadsVascScoreSpec b ≤ 9) ∧
    (∀ b : Cha2Ds2VA, chadsVaScoreSpec b ≤ 8) :=
  ⟨chadsVasc_calculate_eq_spec, chadsVa_calculate_eq_spec, by decide, by decide,
    chadsVascScoreSpec_le, chadsVaScoreSpec_le⟩

/-- C8: before any compute call every score / risk accessor returns the absent
value, and right after compute each accessor returns a present value. -/
theorem claim_C8_accessors_absent_then_present :
    (∀ (age : Years) (sex : Gender) (ops : List VascOp), VascOp.compute ∉ ops →
        ((ChadsVasc.new age sex).applyOps ops).score = none ∧
        ((ChadsVasc.new age sex).applyOps ops).annual_stroke_risk_pct = none) ∧
    (∀ (age : Years) (ops : List VascOp), VascOp.compute ∉ ops →
        ((Cha2Ds2VA.new age).applyOps ops).score = none ∧
        ((Cha2Ds2VA.new age).applyOps ops).annual_cva_risk_no_oac = none ∧
        ((Cha2Ds2VA.new age).applyOps ops).annual_cva_risk_with_oac = none) ∧
    (∀ b : ChadsVasc, ((b.calculate).score).isSome ∧
        ((b.calculate).annual_stroke_risk_pct).isSome) ∧
    (∀ b : Cha2Ds2VA, ((b.calculate).score).isSome ∧
        ((b.calculate).annual_cva_risk_no_oac).isSome ∧
        ((b.calculate).annual_cva_risk_with_oac).isSome) := by
  refine ⟨?_, ?_, ?_, ?_⟩
  · intro age sex ops h
    have hnone : ((ChadsVasc.new age sex).applyOps ops).score = none :=
      vasc_applyOps_score_none ops h _ rfl
    exact ⟨hnone, by simp [ChadsVasc.annual_stroke_risk_pct, hnone]⟩
  · intro age ops h
    have hnone : ((Cha2Ds2VA.new age).applyOps ops).score = none :=
      va_applyOps_score_none ops h _ rfl
    exact ⟨hnone, by simp [Cha2Ds2VA.annual_cva_risk_no_oac, hnone],
      by simp [Cha2Ds2VA.annual_cva_risk_with_oac, hnone]⟩
  · intro b
    have hs := chadsVasc_calculate_eq_spec b
    refine ⟨by simp [hs], ?_⟩
    have := vascTableGetIsSome (chadsVascScoreSpec b) (chadsVascScoreSpec_le b)
    simpa [ChadsVasc.annual_stroke_risk_pct, hs] using this
  · intro b
    have hs := chadsVa_calculate_eq_spec b
    have hget := vaTableGetIsSome (chadsVaScoreSpec b) (chadsVaScoreSpec_le b)
    obtain ⟨p, hp⟩ := Option.isSome_iff_exists.mp hget
    rw [List.get?_eq_getElem?] at hp
    exact ⟨by simp [hs], by simp [Cha2Ds2VA.annual_cva_risk_no_oac, hs, hp],
      by simp [Cha2Ds2VA.annual_cva_risk_with_oac, hs, hp]⟩

/-- C9: through any sequence of public-API calls the stored score after a
compute is at most 9 (VASc) / 8 (VA) — the age arm of the match yields at most
2 for every comparison outcome, including the all-false one of a non-finite
age — so the 10-entry and 9-entry risk-table lookups are always in bounds and
the risk accessors never fail. -/
theorem claim_C9_risk_table_lookup_in_bounds :
    (∀ ge75 ge65 : Bool, agePointsOf ge75 ge65 ≤ 2) ∧
    (∀ (age : Years) (sex : Gender) (ops : List VascOp) (s : ℕ),
        ((ChadsVasc.new age sex).applyOps ops).score = some s →
        s ≤ 9 ∧ (((ChadsVasc.new age sex).applyOps ops).annual_stroke_risk_pct).isSome) ∧
    (∀ (age : Years) (ops : List VascOp) (s : ℕ),
        ((Cha2Ds2VA.new age).applyOps ops).score = some s →
        s ≤ 8 ∧ (((Cha2Ds2VA.new age).applyOps ops).annual_cva_risk_no_oac).isSome ∧
          (((Cha2Ds2VA.new age).applyOps ops).annual_cva_risk_with_oac).isSome) := by
  refine ⟨?_, ?_, ?_⟩
  · intro ge75 ge65
    cases ge75 <;> cases ge65 <;> decide
  · intro age sex ops s hs
    have hle : s ≤ 9 :=
      vasc_applyOps_score_le ops (ChadsVasc.new age sex)
        (by intro s' h'; simp [ChadsVasc.new] at h') s hs
    refine ⟨hle, ?_⟩
    have := vascTableGetIsSome s hle
    simpa [ChadsVasc.annual_stroke_risk_pct, hs] using this
  · intro age ops s hs
    have hle : s ≤ 8 :=
      va_applyOps_score_le ops (Cha2Ds2VA.new age)
        (by intro s' h'; simp [Cha2Ds2VA.new] at h') s hs
    obtain ⟨p, hp⟩ := Option.isSome_iff_exists.mp (vaTableGetIsSome s hle)
    rw [List.get?_eq_getElem?] at hp
    exact ⟨hle, by simp [Cha2Ds2VA.annual_cva_risk_no_oac, hs, hp],
      by simp [Cha2Ds2VA.annual_cva_risk_with_oac, hs, hp]⟩

/-- C10: each flag setter sets only its own flag and leaves every other field
(age, sex, the other flags, the stored score) unchanged; in particular calling
a setter after compute preserves the stale stored score, which then no longer
matches the tally of the new flags. -/
theorem claim_C10_setters_frame :
    (∀ b : ChadsVasc,
      ((b.has_chf).chf = true ∧ (b.has_chf).age = b.age ∧ (b.has_chf).sex = b.sex ∧
        (b.has_chf).diabetes = b.diabetes ∧ (b.has_chf).htn = b.htn ∧
        (b.has_chf).stroke = b.stroke ∧ (b.has_chf).vasc = b.vasc ∧
        (b.has_chf).score = b.score) ∧
      ((b.has_diabetes).diabetes = true ∧ (b.has_diabetes).age = b.age ∧
        (b.has_diabetes).sex = b.sex ∧ (b.has_diabetes).chf = b.chf ∧
        (b.has_diabetes).htn = b.htn ∧ (b.has_diabetes).stroke = b.stroke ∧
        (b.has_diabetes).vasc = b.vasc ∧ (b.has_diabetes).score = b.score) ∧
      ((b.has_htn).htn = true ∧ (b.has_htn).age = b.age ∧ (b.has_htn).sex = b.sex ∧
        (b.has_htn).chf = b.chf ∧ (b.has_htn).diabetes = b.diabetes ∧
        (b.has_htn).stroke = b.stroke ∧ (b.has_htn).vasc = b.vasc ∧
        (b.has_htn).score = b.score) ∧
      ((b.has_stroke_hx).stroke = true ∧ (b.has_stroke_hx).age = b.age ∧
        (b.has_stroke_hx).sex = b.sex ∧ (b.has_stroke_hx).chf = b.chf ∧
        (b.has_stroke_hx).diabetes = b.diabetes ∧ (b.has_stroke_hx).htn = b.htn ∧
        (b.has_stroke_hx).vasc = b.vasc ∧ (b.has_stroke_hx).score = b.score) ∧
      ((b.has_vascular_hx).vasc = true ∧ (b.has_vascular_hx).age = b.age ∧
        (b.has_vascular_hx).sex = b.sex ∧ (b.has_vascular_hx).chf = b.chf ∧
        (b.has_vascular_hx).diabetes = b.diabetes ∧
        (b.has_vascular_hx).htn = b.htn ∧ (b.has_vascular_hx).stroke = b.stroke ∧
        (b.has_vascular_hx).score = b.score)) ∧
    (∀ b : Cha2Ds2VA,
      ((b.has_chf).chf = true ∧ (b.has_chf).age = b.age ∧
        (b.has_chf).diabetes = b.diabetes ∧ (b.has_chf).htn = b.htn ∧
        (b.has_chf).stroke = b.stroke ∧ (b.has_chf).vasc = b.vasc ∧
        (b.has_chf).score = b.score) ∧
      ((b.has_diabetes).diabetes = true ∧ (b.has_diabetes).age = b.age ∧
        (b.has_diabetes).chf = b.chf ∧ (b.has_diabetes).htn = b.htn ∧
        (b.has_diabetes).stroke = b.stroke ∧ (b.has_diabetes).vasc = b.vasc ∧
        (b.has_diabetes).score = b.score) ∧
      ((b.has_htn).htn = true ∧ (b.has_htn).age = b.age ∧ (b.has_htn).chf = b.chf ∧
        (b.has_htn).diabetes = b.diabetes ∧ (b.has_htn).stroke = b.stroke ∧
        (b.has_htn).vasc = b.vasc ∧ (b.has_htn).score = b.score) ∧
      ((b.has_stroke_hx).stroke = true ∧ (b.has_stroke_hx).age = b.age ∧
        (b.has_stroke_hx).chf = b.chf ∧ (b.has_stroke_hx).diabetes = b.diabetes ∧
        (b.has_stroke_hx).htn = b.htn ∧ (b.has_stroke_hx).vasc = b.vasc ∧
        (b.has_stroke_hx).score = b.score) ∧
      ((b.has_vascular_hx).vasc = true ∧ (b.has_vascular_hx).age = b.age ∧
        (b.has_vascular_hx).chf = b.chf ∧
        (b.has_vascular_hx).diabetes = b.diabetes ∧
        (b.has_vascular_hx).htn = b.htn ∧ (b.has_vascular_hx).stroke = b.stroke ∧
        (b.has_vascular_hx).score = b.score)) ∧
    (((ChadsVasc.new ⟨50⟩ Gender.Male).calculate.has_chf).score = some 0 ∧
      chadsVascScoreSpec ((ChadsVasc.new ⟨50⟩ Gender.Male).calculate.has_chf) = 1) :=
  ⟨fun _ => ⟨⟨rfl, rfl, rfl, rfl, rfl, rfl, rfl, rfl⟩,
      ⟨rfl, rfl, rfl, rfl, rfl, rfl, rfl, rfl⟩,
      ⟨rfl, rfl, rfl, rfl, rfl, rfl, rfl, rfl⟩,
      ⟨rfl, rfl, rfl, rfl, rfl, rfl, rfl, rfl⟩,
      ⟨rfl, rfl, rfl, rfl, rfl, rfl, rfl, rfl⟩⟩,
    fun _ => ⟨⟨rfl, rfl, rfl, rfl, rfl, rfl, rfl⟩,
      ⟨rfl, rfl, rfl, rfl, rfl, rfl, rfl⟩,
      ⟨rfl, rfl, rfl, rfl, rfl, rfl, rfl⟩,
      ⟨rfl, rfl, rfl, rfl, rfl, rfl, rfl⟩,
      ⟨rfl, rfl, rfl, rfl, rfl, rfl, rfl⟩⟩,
    by decide, by decide⟩

/-- Witness for C8 at concrete inputs: a setter-only call sequence leaves the
accessors absent, and a compute call makes them present. -/
theorem claim_C8_accessors_absent_then_present_witness :
    (((ChadsVasc.new ⟨50⟩ Gender.Male).applyOps [VascOp.chf]).score = none ∧
      ((ChadsVasc.new ⟨50⟩ Gender.Male).applyOps
        [VascOp.chf]).annual_stroke_risk_pct = none) ∧
    (((Cha2Ds2VA.new ⟨50⟩).applyOps [VascOp.htn]).score = none ∧
      ((Cha2Ds2VA.new ⟨50⟩).applyOps [VascOp.htn]).annual_cva_risk_no_oac = none ∧
      ((Cha2Ds2VA.new ⟨50⟩).applyOps [VascOp.htn]).annual_cva_risk_with_oac = none) :=
  ⟨claim_C8_accessors_absent_then_present.1 ⟨50⟩ Gender.Male [VascOp.chf] (by decide),
    claim_C8_accessors_absent_then_present.2.1 ⟨50⟩ [VascOp.htn] (by decide)⟩

/-- Witness for C9 at a concrete input: a fresh builder computed once stores
score 0 and its risk lookups are in bounds. -/
theorem claim_C9_risk_table_lookup_in_bounds_witness :
    ((0 : ℕ) ≤ 9 ∧ (((ChadsVasc.new ⟨50⟩ Gender.Male).applyOps
        [VascOp.compute]).annual_stroke_risk_pct).isSome) ∧
    ((0 : ℕ) ≤ 8 ∧ (((Cha2Ds2VA.new ⟨50⟩).applyOps
        [VascOp.compute]).annual_cva_risk_no_oac).isSome ∧
      (((Cha2Ds2VA.new ⟨50⟩).applyOps
        [VascOp.compute]).annual_cva_risk_with_oac).isSome) :=
  ⟨claim_C9_risk_table_lookup_in_bounds.2.1 ⟨50⟩ Gender.Male [VascOp.compute] 0
      (by decide),
    claim_C9_risk_table_lookup_in_bounds.2.2 ⟨50⟩ [VascOp.compute] 0 (by decide)⟩

/-! ## Claim theorems: range classification -/

/-- C6: `select_range` assigns a value exactly equal to a cut point to the
range below it — the `<=` chain is inclusive toward the lower category — and a
value exactly at `low_norm` classifies as Low, not Normal. -/
theorem claim_C6_select_range_inclusive_lower :
    ∀ (value : ℚ) (t : RangeThreshold),
      (value ≤ t.crit_low → select_range value t = ResultRange.CriticalLow) ∧
      (¬ value ≤ t.crit_low → value ≤ t.low_norm →
        select_range value t = ResultRange.Low) ∧
      (¬ value ≤ t.crit_low → ¬ value ≤ t.low_norm → value ≤ t.norm_hi →
        select_range value t = ResultRange.Normal) ∧
      (¬ value ≤ t.crit_low → ¬ value ≤ t.low_norm → ¬ value ≤ t.norm_hi →
        value ≤ t.hi_crit → select_range value t = ResultRange.High) ∧
      (¬ value ≤ t.crit_low → ¬ value ≤ t.low_norm → ¬ value ≤ t.norm_hi →
        ¬ value ≤ t.hi_crit → select_range value t = ResultRange.CriticalHigh) ∧
      (t.crit_low < t.low_norm →
        select_range t.low_norm t = ResultRange.Low ∧
          select_range t.low_norm t ≠ ResultRange.Normal) := by
  intro v t
  refine ⟨fun h1 => ?_, fun h1 h2 => ?_, fun h1 h2 h3 => ?_,
    fun h1 h2 h3 h4 => ?_, fun h1 h2 h3 h4 => ?_, fun h => ?_⟩
  · simp [select_range, h1]
  · simp [select_range, h1, h2]
  · simp [select_range, h1, h2, h3]
  · simp [select_range, h1, h2, h3, h4]
  · simp [select_range, h1, h2, h3, h4]
  · have hn : ¬ t.low_norm ≤ t.crit_low := not_le.mpr h
    constructor
    · simp [select_range, hn]
    · simp [select_range, hn]

/-- Witness for C6 over the serum-sodium threshold table at concrete values in
each band and exactly at the low/normal cut point. -/
theorem claim_C6_select_range_inclusive_lower_witness :
    select_range 120 NA_SERUM_THRESHOLDS = ResultRange.CriticalLow ∧
    select_range 133 NA_SERUM_THRESHOLDS = ResultRange.Low ∧
    select_range 140 NA_SERUM_THRESHOLDS = ResultRange.Normal ∧
    select_range 148 NA_SERUM_THRESHOLDS = ResultRange.High ∧
    select_range 155 NA_SERUM_THRESHOLDS = ResultRange.CriticalHigh ∧
    (select_range NA_SERUM_THRESHOLDS.low_norm NA_SERUM_THRESHOLDS =
        ResultRange.Low ∧
      select_range NA_SERUM_THRESHOLDS.low_norm NA_SERUM_THRESHOLDS ≠
        ResultRange.Normal) :=
  ⟨(claim_C6_select_range_inclusive_lower 120 NA_SERUM_THRESHOLDS).1
      (by norm_num [NA_SERUM_THRESHOLDS]),
    (claim_C6_select_range_inclusive_lower 133 NA_SERUM_THRESHOLDS).2.1
      (by norm_num [NA_SERUM_THRESHOLDS]) (by norm_num [NA_SERUM_THRESHOLDS]),
    (claim_C6_select_range_inclusive_lower 140 NA_SERUM_THRESHOLDS).2.2.1
      (by norm_num [NA_SERUM_THRESHOLDS]) (by norm_num [NA_SERUM_THRESHOLDS])
      (by norm_num [NA_SERUM_THRESHOLDS]),
    (claim_C6_select_range_inclusive_lower 148 NA_SERUM_THRESHOLDS).2.2.2.1
      (by norm_num [NA_SERUM_THRESHOLDS]) (by norm_num [NA_SERUM_THRESHOLDS])
      (by norm_num [NA_SERUM_THRESHOLDS]) (by norm_num [NA_SERUM_THRESHOLDS]),
    (claim_C6_select_range_inclusive_lower 155 NA_SERUM_THRESHOLDS).2.2.2.2.1
      (by norm_num [NA_SERUM_THRESHOLDS]) (by norm_num [NA_SERUM_THRESHOLDS])
      (by norm_num [NA_SERUM_THRESHOLDS]) (by norm_num [NA_SERUM_THRESHOLDS]),
    (claim_C6_select_range_inclusive_lower 0 NA_SERUM_THRESHOLDS).2.2.2.2.2
      (by norm_num [NA_SERUM_THRESHOLDS])⟩

/-- C7: the sodium and glucose `range()` impls use strict `<` at every cut
point, so a value exactly at a cut point lands in the category above it —
sodium exactly at its 135.0 low/normal cut classifies Normal — diverging from
`select_range` on the same thresholds at exact boundary values. -/
theorem claim_C7_strict_range_boundary_divergence :
    (∀ v : ℚ, sodiumRange v = selectRangeStrict v NA_SERUM_THRESHOLDS) ∧
    (∀ v : ℚ, glucoseRangeMgdl v = selectRangeStrict v GLU_SERUM_THRESHOLDS_MGDL) ∧
    (∀ v : ℚ, glucoseRangeMmol v = selectRangeStrict v GLU_SERUM_THRESHOLDS_MMOLL) ∧
    sodiumRange 135 = ResultRange.Normal ∧
    select_range 135 NA_SERUM_THRESHOLDS = ResultRange.Low ∧
    sodiumRange 135 ≠ select_range 135 NA_SERUM_THRESHOLDS ∧
    glucoseRangeMgdl 85 = ResultRange.Normal ∧
    select_range 85 GLU_SERUM_THRESHOLDS_MGDL = ResultRange.Low := by
  refine ⟨fun v => rfl, fun v => rfl, fun v => rfl, ?_, ?_, ?_, ?_, ?_⟩
  · norm_num [sodiumRange, NA_SERUM_THRESHOLDS]
  · norm_num [select_range, NA_SERUM_THRESHOLDS]
  · norm_num [sodiumRange, select_range, NA_SERUM_THRESHOLDS]
    decide
  · norm_num [glucoseRangeMgdl, GLU_SERUM_THRESHOLDS_MGDL]
  · norm_num [select_range, GLU_SERUM_THRESHOLDS_MGDL]

/-! ## Claim theorems: sodium correction and unit round-trips -/

/-- C1: sodium correction converts both inputs to mmol/L, uses the Katz
coefficient 0.29 strictly below glucose 22.2 mmol/L and the Hillier
coefficient 0.43 at or above it (22.2 exactly is Hillier), and returns the
result in the caller's sodium unit; sodium 130 mEq/L with glucose 10 mmol/L
yields 131.276. -/
theorem claim_C1_sodium_correction_for_glucose :
    (∀ (nU : SodiumUnit) (gU : GlucoseUnit) (sodium glucose : ℚ),
        correct_na_for_glucose nU gU sodium glucose =
          correctedNaClaim gU sodium glucose) ∧
    (∀ (nU : SodiumUnit) (sodium : ℚ),
        correct_na_for_glucose nU GlucoseUnit.MmolL sodium 22.2 =
          sodium + 0.43 * (22.2 - 5.6)) ∧
    correct_na_for_glucose SodiumUnit.MeqL GlucoseUnit.MmolL 130 10 = 131.276 := by
  refine ⟨?_, ?_, ?_⟩
  · intro nU gU sodium glucose
    cases nU <;> rfl
  · intro nU sodium
    cases nU <;>
      norm_num [correct_na_for_glucose, SodiumUnit.to_mmol_l,
        SodiumUnit.from_mmol_l, GlucoseUnit.to_mmol_l]
  · norm_num [correct_na_for_glucose, SodiumUnit.to_mmol_l,
      SodiumUnit.from_mmol_l, GlucoseUnit.to_mmol_l]

/-- An exact round trip is in particular within 1e-9 relative error. -/
lemma rel_err_of_eq {x y : ℚ} (h : y = x) : |y - x| ≤ 1 / 1000000000 * |x| := by
  rw [h, sub_self, abs_zero]
  positivity

/-- C4: for every supported unit pair of a Kind, converting a value to the
other unit and back reproduces the original within 1e-9 relative error (in
this exact-arithmetic embedding the round trip is exact); 70 kg → lb → kg
returns 70.0. -/
theorem claim_C4_unit_conversion_roundtrip :
    (∀ x : ℚ, |weightLbToKg (weightKgToLb x) - x| ≤ 1 / 1000000000 * |x|) ∧
    (∀ x : ℚ, |weightKgToLb (weightLbToKg x) - x| ≤ 1 / 1000000000 * |x|) ∧
    (∀ x : ℚ, |heightFtToM (heightMToFt x) - x| ≤ 1 / 1000000000 * |x|) ∧
    (∀ x : ℚ, |heightMToFt (heightFtToM x) - x| ≤ 1 / 1000000000 * |x|) ∧
    (∀ x : ℚ, |glucoseMgdlToMmol (glucoseMmolToMgdl x) - x| ≤ 1 / 1000000000 * |x|) ∧
    (∀ x : ℚ, |glucoseMmolToMgdl (glucoseMgdlToMmol x) - x| ≤ 1 / 1000000000 * |x|) ∧
    (∀ x : ℚ, |creatinineUmolToMgdl (creatinineMgdlToUmol x) - x| ≤ 1 / 1000000000 * |x|) ∧
    (∀ x : ℚ, |creatinineMgdlToUmol (creatinineUmolToMgdl x) - x| ≤ 1 / 1000000000 * |x|) ∧
    (∀ x : ℚ, |bilirubinUmolToMgdl (bilirubinMgdlToUmol x) - x| ≤ 1 / 1000000000 * |x|) ∧
    (∀ x : ℚ, |bilirubinMgdlToUmol (bilirubinUmolToMgdl x) - x| ≤ 1 / 1000000000 * |x|) ∧
    (∀ x : ℚ, |sodiumMmolToMeq (sodiumMeqToMmol x) - x| ≤ 1 / 1000000000 * |x|) ∧
    (∀ x : ℚ, |sodiumMeqToMmol (sodiumMmolToMeq x) - x| ≤ 1 / 1000000000 * |x|) ∧
    weightLbToKg (weightKgToLb 70) = 70 := by
  refine ⟨fun x => rel_err_of_eq ?_, fun x => rel_err_of_eq ?_,
    fun x => rel_err_of_eq ?_, fun x => rel_err_of_eq ?_,
    fun x => rel_err_of_eq ?_, fun x => rel_err_of_eq ?_,
    fun x => rel_err_of_eq ?_, fun x => rel_err_of_eq ?_,
    fun x => rel_err_of_eq ?_, fun x => rel_err_of_eq ?_,
    fun x => rel_err_of_eq rfl, fun x => rel_err_of_eq rfl, ?_⟩
  · rw [weightLbToKg, weightKgToLb, mul_assoc]
    norm_num [KG_TO_LB, LB_TO_KG]
  · rw [weightKgToLb, weightLbToKg, mul_assoc]
    norm_num [KG_TO_LB, LB_TO_KG]
  · rw [heightFtToM, heightMToFt, mul_assoc]
    norm_num [M_TO_FT, FT_TO_M]
  · rw [heightMToFt, heightFtToM, mul_assoc]
    norm_num [M_TO_FT, FT_TO_M]
  · rw [glucoseMgdlToMmol, glucoseMmolToMgdl, mul_assoc]
    norm_num [GLU_MGDL_TO_MMOLL, GLU_MMOLL_TO_MGDL]
  · rw [glucoseMmolToMgdl, glucoseMgdlToMmol, mul_assoc]
    norm_num [GLU_MGDL_TO_MMOLL, GLU_MMOLL_TO_MGDL]
  · rw [creatinineUmolToMgdl, creatinineMgdlToUmol, mul_div_cancel_right₀]
    norm_num [SCR_MGDL_TO_UMOLL]
  · rw [creatinineMgdlToUmol, creatinineUmolToMgdl, div_mul_cancel₀]
    norm_num [SCR_MGDL_TO_UMOLL]
  · rw [bilirubinUmolToMgdl, bilirubinMgdlToUmol, mul_assoc]
    norm_num [SBILI_MGDL_TO_UMOLL, SBILI_UMOLL_TO_MGDL]
  · rw [bilirubinMgdlToUmol, bilirubinUmolToMgdl, mul_assoc]
    norm_num [SBILI_MGDL_TO_UMOLL, SBILI_UMOLL_TO_MGDL]
  · rw [weightLbToKg, weightKgToLb, mul_assoc]
    norm_num [KG_TO_LB, LB_TO_KG]

/-! ## Claim theorems: eGFR and MELD -/

/-- The creatinine conversion constant is nonzero over ℝ. -/
lemma scr_cast_ne : ((SCR_MGDL_TO_UMOLL : ℚ) : ℝ) ≠ 0 := by
  norm_num [SCR_MGDL_TO_UMOLL]

/-- The code's µmol/L-routed creatinine conversion agrees with a direct
expression in mg/dL. -/
lemma egfr_eq_claim (u : CreatinineUnit) (scr : ℝ) (age : Years) (sex : Gender) :
    egfr_ckd_epi u scr age sex = egfrClaimFormula u scr age sex := by
  cases u
  case MgdL =>
    simp only [egfr_ckd_epi, egfrClaimFormula, CreatinineUnit.to_umol_l,
      CreatinineUnit.from_umol_l]
    rw [mul_div_cancel_right₀ scr scr_cast_ne]
  case UmolL => rfl

/-- C2: for every creatinine unit, age and sex, `egfr_ckd_epi` computes
`142 × min(1, scr_mgdl/κ)^α × max(1, scr_mgdl/κ)^(−1.2) × 0.9938^age × sex-mult`
with (κ, α, mult) = (0.7, −0.241, 1.012) female / (0.9, −0.302, 1.0) male and
the creatinine expressed in mg/dL; 88.4 µmol/L gives the identical result to
1.0 mg/dL. -/
theorem claim_C2_egfr_ckd_epi_formula :
    (∀ (u : CreatinineUnit) (scr : ℝ) (age : Years) (sex : Gender),
        egfr_ckd_epi u scr age sex = egfrClaimFormula u scr age sex) ∧
    (∀ (age : Years) (sex : Gender),
        egfr_ckd_epi CreatinineUnit.UmolL 88.4 age sex =
          egfr_ckd_epi CreatinineUnit.MgdL 1.0 age sex) := by
  refine ⟨egfr_eq_claim, ?_⟩
  intro age sex
  rw [egfr_eq_claim, egfr_eq_claim]
  cases sex <;> norm_num [egfrClaimFormula, SCR_MGDL_TO_UMOLL]

/-- Multiplying by the µmol/L → mg/dL bilirubin factor is division by the
mg/dL → µmol/L factor. -/
lemma bili_umoll_cv (x : ℝ) :
    x * ((SBILI_UMOLL_TO_MGDL : ℚ) : ℝ) = x / ((SBILI_MGDL_TO_UMOLL : ℚ) : ℝ) := by
  rw [div_eq_mul_inv]
  norm_num [SBILI_MGDL_TO_UMOLL, SBILI_UMOLL_TO_MGDL]

/-- Multiplying by the µmol/L → mg/dL creatinine factor is division by the
mg/dL → µmol/L factor. -/
lemma scr_umoll_cv (x : ℝ) :
    x * ((SCR_UMOLL_TO_MGDL : ℚ) : ℝ) = x / ((SCR_MGDL_TO_UMOLL : ℚ) : ℝ) := by
  rw [div_eq_mul_inv]
  norm_num [SCR_MGDL_TO_UMOLL, SCR_UMOLL_TO_MGDL]

/-- The bilirubin mg/dL → µmol/L → mg/dL route is the identity. -/
lemma bili_mul_div_cancel (x : ℝ) :
    x * ((SBILI_MGDL_TO_UMOLL : ℚ) : ℝ) / ((SBILI_MGDL_TO_UMOLL : ℚ) : ℝ) = x := by
  rw [mul_div_cancel_right₀]
  norm_num [SBILI_MGDL_TO_UMOLL]

/-- The creatinine mg/dL → µmol/L → mg/dL route is the identity. -/
lemma scr_mul_div_cancel (x : ℝ) :
    x * ((SCR_MGDL_TO_UMOLL : ℚ) : ℝ) / ((SCR_MGDL_TO_UMOLL : ℚ) : ℝ) = x := by
  rw [mul_div_cancel_right₀]
  norm_num [SCR_MGDL_TO_UMOLL]

/-- C3: `meld` converts bilirubin and creatinine to mg/dL, floors bilirubin at
1.0 unconditionally, forces creatinine to exactly 4.0 when dialysis is
recorded at most 7 days ago and floors it at 1.0 otherwise (absence of the
dialysis value means no override), applies no floor to INR, and returns the
rounded (half away from zero) log-linear score as an unsigned byte; bilirubin
1.0, INR 1.0, creatinine 1.0 mg/dL with no dialysis scores 6. -/
theorem claim_C3_meld_floors_and_score :
    (∀ (bU : BilirubinUnit) (cU : CreatinineUnit) (bili inr scr : ℝ)
        (last_hd : Option ℕ),
        meld bU cU bili inr scr last_hd =
          meldClaimFormula bU cU bili inr scr last_hd) ∧
    meld BilirubinUnit.MgdL CreatinineUnit.MgdL 1 1 1 none = 6 := by
  constructor
  · intro bU cU bili inr scr last_hd
    cases bU <;> cases cU <;> cases last_hd <;>
      simp [meld, meldClaimFormula, BilirubinUnit.to_umoll,
        CreatinineUnit.to_umol_l, bili_umoll_cv, scr_umoll_cv,
        bili_mul_div_cancel, scr_mul_div_cancel]
  · simp only [meld, BilirubinUnit.to_umoll, CreatinineUnit.to_umol_l,
      bili_umoll_cv, scr_umoll_cv, bili_mul_div_cancel, scr_mul_div_cancel]
    rw [show max (1 : ℝ) 1.0 = 1 by norm_num]
    rw [show (3.78 * Real.log 1 + 11.2 * Real.log 1 + 9.57 * Real.log 1
        + 6.43 : ℝ) = 6.43 by simp [Real.log_one]]
    rw [roundHalfAwayFromZero, if_pos (by norm_num : (0:ℝ) ≤ 6.43)]
    rw [show ⌊(6.43 : ℝ) + 1 / 2⌋ = 6 from Int.floor_eq_iff.mpr (by norm_num)]
    decide
